import Mathlib

/-!
Verification of the S3 sync script of this repository (script/sync.py).

The script has three parts, each embedded below:
  * transform_path_to_s3_key : the key deriver, a pure function from a
    repository-relative path string to an optional S3 object key;
  * upload_to_s3 : the per-file upload executor, which reads AWS
    credentials from the environment, checks them, and performs one
    whole-object transfer through the boto3 client;
  * the __main__ batch loop, which checks S3_BUCKET_NAME, iterates over
    the argument list, and computes the process exit code.

The external world is represented explicitly: the environment variables
as an Env record of optional strings, and the S3 client as a Put oracle
mapping (local path, bucket, key) to a transfer result. Observable
events of the script (log emissions for configuration errors, calls of
the upload executor, invocations of the boto3 transfer, per-file
outcomes) are accumulated in the loop state so that theorems can speak
about them.
-/

namespace SyncSpec

/-- Result of one boto3 upload_file call as the script distinguishes them:
success, FileNotFoundError (local file missing), or ClientError with the
diagnostic message of the service. -/
inductive S3Result where
  | ok : S3Result
  | fileNotFound : S3Result
  | clientError : String → S3Result

/-- The S3 client oracle: arguments are local file path, bucket name and
object key, in the order of the upload_file call in the script. -/
abbrev Put := String → String → String → S3Result

/-- The environment variables the script reads, each possibly unset.
Mirrors os.environ.get for AWS_ACCESS_KEY_ID, AWS_SECRET_ACCESS_KEY,
AWS_REGION, S3_ENDPOINT and S3_BUCKET_NAME. -/
structure Env where
  awsAccessKeyId : Option String
  awsSecretAccessKey : Option String
  awsRegion : Option String
  s3Endpoint : Option String
  s3BucketName : Option String

/-- Python truthiness of an optional string: None and the empty string
are falsy, every other string is truthy. This models both the
"if not s3_bucket" check and the "all([...])" credential check. -/
def truthy : Option String → Bool
  | none => false
  | some s => !(s == "")

/-- Split a character list at every occurrence of the separator,
keeping empty pieces (they are filtered afterwards, as pathlib drops
empty and single-dot components of a relative POSIX path). -/
def splitChars (sep : Char) : List Char → List (List Char)
  | [] => [[]]
  | c :: cs =>
    match splitChars sep cs with
    | [] => if c == sep then [[], []] else [[c]]
    | piece :: rest =>
      if c == sep then [] :: piece :: rest
      else (c :: piece) :: rest

/-- The segment list of a repository-relative path string: the model of
pathlib.Path(s).parts for a relative POSIX path, which splits on the
slash and discards empty components and single-dot components. -/
def pathParts (s : String) : List String :=
  ((splitChars '/' s.toList).map (fun cs => String.mk cs)).filter
    (fun p => !(p == "") && !(p == "."))

/-- Model of Python str.find for a single character: the index of its
first occurrence, or -1 when the character does not occur. -/
def pyFind (s : String) (c : Char) : Int :=
  match s.toList.findIdx? (fun x => x == c) with
  | some i => (i : Int)
  | none => -1

/-- The key derivation rule of transform_path_to_s3_key, acting on the
segment list of the path. Requires at least three segments; takes the
first segment, finds its first underscore, requires that underscore to
exist at a positive index; the category is everything strictly after
that underscore; the key is the literal prefix, the category and the
last segment joined by slashes. Every non-matching shape yields none,
as does the except-branch of the script. -/
def transformParts (parts : List String) : Option String :=
  if 3 ≤ parts.length then
    let first_dir := parts.headD ""
    let filename := parts.getLastD ""
    let underscore_index := pyFind first_dir '_'
    if 0 < underscore_index then
      let category := String.mk (first_dir.toList.drop (underscore_index.toNat + 1))
      some ("others/" ++ category ++ "/" ++ filename)
    else
      none
  else
    none

/-- transform_path_to_s3_key of the script: parse the path string into
segments and apply the derivation rule. The try-except wrapper of the
script converts any internal fault to None; the embedded function is
total, so every input already yields some key or none. -/
def transform_path_to_s3_key (repo_path_str : String) : Option String :=
  transformParts (pathParts repo_path_str)

/-- Observable result of one call of the upload executor: whether it
returned True, whether it emitted the missing-configuration error log
line, and whether the boto3 upload_file transfer was invoked. -/
structure UploadCall where
  success : Bool
  configError : Bool
  attempted : Bool
  deriving DecidableEq

/-- upload_to_s3 of the script: read the credentials from the
environment, fail with a configuration-error log line when any of
access key, secret key, region or bucket name is falsy, otherwise
attempt one transfer through the client oracle and classify the
outcome. -/
def upload_to_s3 (env : Env) (put : Put) (file_path bucket_name s3_key : String) : UploadCall :=
  let aws_access_key_id := env.awsAccessKeyId
  let aws_secret_access_key := env.awsSecretAccessKey
  let aws_region := env.awsRegion
  if !(truthy aws_access_key_id && truthy aws_secret_access_key
        && truthy aws_region && !(bucket_name == "")) then
    { success := false, configError := true, attempted := false }
  else
    match put file_path bucket_name s3_key with
    | S3Result.ok => { success := true, configError := false, attempted := true }
    | S3Result.fileNotFound => { success := false, configError := false, attempted := true }
    | S3Result.clientError _ => { success := false, configError := false, attempted := true }

/-- Per-file outcome in the sense of the batch summary: uploaded,
skipped by the key deriver, or failed in the upload executor. -/
inductive Outcome where
  | uploaded : Outcome
  | skipped : Outcome
  | failed : Outcome
  deriving DecidableEq

/-- Whether an outcome is the Failed outcome. -/
def Outcome.isFailed : Outcome → Bool
  | Outcome.failed => true
  | _ => false

/-- The outcome of one file of the batch: rejection by the key deriver
gives skipped, otherwise the upload executor decides between uploaded
and failed. -/
def fileOutcome (env : Env) (put : Put) (bucket : String) (f : String) : Outcome :=
  match transform_path_to_s3_key f with
  | some s3_object_key =>
    if (upload_to_s3 env put f bucket s3_object_key).success then Outcome.uploaded
    else Outcome.failed
  | none => Outcome.skipped

/-- State of the batch loop: the three counters of the script
(all_successful, successful_uploads, skipped_files) together with the
observable event record (number of derivations run, files passed to the
upload executor, configuration-error log emissions, boto3 transfer
invocations, and the per-file outcome trace in processing order). -/
structure LoopState where
  all_successful : Bool
  successful_uploads : Nat
  skipped_files : Nat
  derivations : Nat
  execCalls : List String
  configErrors : Nat
  attempts : Nat
  trace : List (String × Outcome)
  deriving DecidableEq

/-- Loop state before any file is processed. -/
def initState : LoopState :=
  { all_successful := true, successful_uploads := 0, skipped_files := 0,
    derivations := 0, execCalls := [], configErrors := 0, attempts := 0, trace := [] }

/-- One iteration of the batch loop of the script: derive the key; on
rejection count the file as skipped; on acceptance call the upload
executor and clear all_successful when it fails. Neither branch touches
successful_uploads. -/
def step (env : Env) (put : Put) (bucket : String) (st : LoopState) (file_path : String) : LoopState :=
  match transform_path_to_s3_key file_path with
  | some s3_object_key =>
    let call := upload_to_s3 env put file_path bucket s3_object_key
    { st with
      derivations := st.derivations + 1,
      all_successful := if call.success then st.all_successful else false,
      execCalls := st.execCalls ++ [file_path],
      configErrors := st.configErrors + (if call.configError then 1 else 0),
      attempts := st.attempts + (if call.attempted then 1 else 0),
      trace := st.trace ++ [(file_path, if call.success then Outcome.uploaded else Outcome.failed)] }
  | none =>
    { st with
      derivations := st.derivations + 1,
      skipped_files := st.skipped_files + 1,
      trace := st.trace ++ [(file_path, Outcome.skipped)] }

/-- Result of one invocation of the script: the process exit code and
the final loop state (initState when the loop never ran). -/
structure RunResult where
  exitCode : Nat
  final : LoopState
  deriving DecidableEq

/-- The __main__ block of the script: exit 1 at once when
S3_BUCKET_NAME is unset or empty; exit 0 at once when the argument list
is empty; otherwise run the batch loop over the arguments in order and
exit 0 exactly when all_successful survived the loop. -/
def runSync (env : Env) (put : Put) (argv : List String) : RunResult :=
  if truthy env.s3BucketName = false then
    { exitCode := 1, final := initState }
  else
    let s3_bucket := env.s3BucketName.getD ""
    if argv.isEmpty then
      { exitCode := 0, final := initState }
    else
      let final := argv.foldl (step env put s3_bucket) initState
      { exitCode := if final.all_successful then 0 else 1, final := final }

/-- Number of files of a run that ended in the Failed outcome. -/
def failedCount (r : RunResult) : Nat :=
  r.final.trace.countP (fun e => (e.2).isFailed)

/-- Whether the three per-upload environment credentials (access key,
secret key, region) are all truthy. -/
def credsOk (env : Env) : Bool :=
  truthy env.awsAccessKeyId && truthy env.awsSecretAccessKey && truthy env.awsRegion

/-- An oracle under which every transfer succeeds. -/
def putOk : Put := fun _ _ _ => S3Result.ok

/-- An oracle under which the transfer of one designated local file
fails with FileNotFoundError and every other transfer succeeds. -/
def putMissing (missing : String) : Put := fun fp _ _ =>
  if fp == missing then S3Result.fileNotFound else S3Result.ok

/-- A fully populated environment. -/
def envFull : Env :=
  { awsAccessKeyId := some "AK", awsSecretAccessKey := some "SK",
    awsRegion := some "eu-1", s3Endpoint := none, s3BucketName := some "bkt" }

/-- An environment whose access key is unset while the bucket name is
set: the missing-credential configuration of claim C1. -/
def envNoKey : Env :=
  { awsAccessKeyId := none, awsSecretAccessKey := some "SK",
    awsRegion := some "eu-1", s3Endpoint := none, s3BucketName := some "bkt" }

/-- An environment whose bucket name is unset. -/
def envNoBucket : Env :=
  { awsAccessKeyId := some "AK", awsSecretAccessKey := some "SK",
    awsRegion := some "eu-1", s3Endpoint := none, s3BucketName := none }

/-! Helper lemmas about the batch loop, shared by the claim theorems. -/

/-- The loop never changes successful_uploads: no branch of the script
increments it. -/
theorem foldl_step_successful_uploads (env : Env) (put : Put) (bucket : String)
    (files : List String) (st : LoopState) :
    (files.foldl (step env put bucket) st).successful_uploads = st.successful_uploads := by
  induction files generalizing st with
  | nil => rfl
  | cons f fs ih =>
    rw [List.foldl_cons, ih]
    cases h : transform_path_to_s3_key f <;> simp [step, h]

/-- The loop runs the key deriver exactly once per file. -/
theorem foldl_step_derivations (env : Env) (put : Put) (bucket : String)
    (files : List String) (st : LoopState) :
    (files.foldl (step env put bucket) st).derivations = st.derivations + files.length := by
  induction files generalizing st with
  | nil => rfl
  | cons f fs ih =>
    rw [List.foldl_cons, ih]
    cases h : transform_path_to_s3_key f <;> simp [step, h]
    all_goals omega

/-- The outcome trace of the loop is the per-file outcome of every input
file, in input order. -/
theorem foldl_step_trace (env : Env) (put : Put) (bucket : String)
    (files : List String) (st : LoopState) :
    (files.foldl (step env put bucket) st).trace
      = st.trace ++ files.map (fun f => (f, fileOutcome env put bucket f)) := by
  induction files generalizing st with
  | nil => simp
  | cons f fs ih =>
    rw [List.foldl_cons, ih]
    cases h : transform_path_to_s3_key f <;> simp [step, h, fileOutcome]

/-- The files passed to the upload executor are exactly those whose
derivation was accepted, in input order. -/
theorem foldl_step_execCalls (env : Env) (put : Put) (bucket : String)
    (files : List String) (st : LoopState) :
    (files.foldl (step env put bucket) st).execCalls
      = st.execCalls ++ files.filter (fun f => (transform_path_to_s3_key f).isSome) := by
  induction files generalizing st with
  | nil => simp
  | cons f fs ih =>
    rw [List.foldl_cons, ih]
    cases h : transform_path_to_s3_key f <;> simp [step, h, List.filter_cons]

/-- The skipped counter counts exactly the files whose derivation was
rejected. -/
theorem foldl_step_skipped (env : Env) (put : Put) (bucket : String)
    (files : List String) (st : LoopState) :
    (files.foldl (step env put bucket) st).skipped_files
      = st.skipped_files + files.countP (fun f => (transform_path_to_s3_key f).isNone) := by
  induction files generalizing st with
  | nil => simp
  | cons f fs ih =>
    rw [List.foldl_cons, ih]
    cases h : transform_path_to_s3_key f <;> simp [step, h, List.countP_cons]
    all_goals omega

/-- all_successful survives the loop exactly when no processed file has
the Failed outcome. -/
theorem foldl_step_all_successful (env : Env) (put : Put) (bucket : String)
    (files : List String) (st : LoopState) :
    (files.foldl (step env put bucket) st).all_successful
      = (st.all_successful && files.all (fun f => !(fileOutcome env put bucket f).isFailed)) := by
  induction files generalizing st with
  | nil => simp
  | cons f fs ih =>
    rw [List.foldl_cons, ih]
    cases h : transform_path_to_s3_key f with
    | none => simp [step, h, fileOutcome, Outcome.isFailed]
    | some v =>
      cases hs : (upload_to_s3 env put f bucket v).success <;>
        simp [step, h, hs, fileOutcome, Outcome.isFailed]

/-- When a per-upload credential is missing, every call of the upload
executor fails at the configuration check, with no transfer invoked. -/
theorem upload_config_fail (env : Env) (put : Put) (fp b k : String)
    (hc : credsOk env = false) :
    upload_to_s3 env put fp b k
      = { success := false, configError := true, attempted := false } := by
  unfold credsOk at hc
  unfold upload_to_s3
  cases ha : truthy env.awsAccessKeyId <;> cases hs : truthy env.awsSecretAccessKey <;>
    cases hr : truthy env.awsRegion <;> simp [ha, hs, hr] at hc ⊢

/-- When a per-upload credential is missing, the loop emits one
configuration-error log line per accepted file. -/
theorem foldl_step_configErrors_bad (env : Env) (put : Put) (bucket : String)
    (files : List String) (st : LoopState) (hc : credsOk env = false) :
    (files.foldl (step env put bucket) st).configErrors
      = st.configErrors + (files.filter (fun f => (transform_path_to_s3_key f).isSome)).length := by
  induction files generalizing st with
  | nil => simp
  | cons f fs ih =>
    rw [List.foldl_cons, ih]
    cases h : transform_path_to_s3_key f <;>
      simp [step, h, upload_config_fail env put f bucket _ hc, List.filter_cons]
    all_goals omega

/-- When a per-upload credential is missing, the loop never invokes the
boto3 transfer. -/
theorem foldl_step_attempts_bad (env : Env) (put : Put) (bucket : String)
    (files : List String) (st : LoopState) (hc : credsOk env = false) :
    (files.foldl (step env put bucket) st).attempts = st.attempts := by
  induction files generalizing st with
  | nil => rfl
  | cons f fs ih =>
    rw [List.foldl_cons, ih]
    cases h : transform_path_to_s3_key f <;>
      simp [step, h, upload_config_fail env put f bucket _ hc]

/-- Counting the elements that satisfy a predicate is positive exactly
when not all elements refute it. -/
theorem countP_pos_iff_not_all (p : String → Bool) (l : List String) :
    0 < l.countP p ↔ l.all (fun a => !(p a)) = false := by
  induction l with
  | nil => simp
  | cons a l ih => cases h : p a <;> simp [List.countP_cons, h, ih]

/-- All elements refute a predicate exactly when its count is zero. -/
theorem all_not_iff_countP_zero (p : String → Bool) (l : List String) :
    (l.all (fun a => !(p a)) = true) ↔ l.countP p = 0 := by
  simp [List.all_eq_true, List.countP_eq_zero]

/-- With the bucket set and a nonempty argument list, a run is the batch
loop over the arguments, and the exit code is decided by all_successful. -/
theorem runSync_eq_loop (env : Env) (put : Put) (files : List String)
    (hb : truthy env.s3BucketName = true) (hne : ¬ files.isEmpty = true) :
    runSync env put files
      = { exitCode :=
            if (files.foldl (step env put (env.s3BucketName.getD "")) initState).all_successful
            then 0 else 1,
          final := files.foldl (step env put (env.s3BucketName.getD "")) initState } := by
  simp [runSync, hb, hne]

/-- With a missing per-upload credential, each file is either failed (if
its derivation was accepted) or skipped. -/
theorem fileOutcome_config_fail (env : Env) (put : Put) (bucket f : String)
    (hc : credsOk env = false) :
    fileOutcome env put bucket f
      = (if (transform_path_to_s3_key f).isSome then Outcome.failed else Outcome.skipped) := by
  unfold fileOutcome
  cases h : transform_path_to_s3_key f <;>
    simp [h, upload_config_fail env put f bucket _ hc]

/-- The count of Failed entries in the loop trace is the count of files
whose outcome is Failed. -/
theorem foldl_step_failed_countP (env : Env) (put : Put) (bucket : String)
    (files : List String) (st : LoopState) :
    ((files.foldl (step env put bucket) st).trace).countP (fun e => (e.2).isFailed)
      = st.trace.countP (fun e => (e.2).isFailed)
        + files.countP (fun f => (fileOutcome env put bucket f).isFailed) := by
  rw [foldl_step_trace]
  simp only [List.countP_append, List.countP_map]
  rfl

/-- With the bucket set, the exit code is 1 exactly when some file of
the batch ended in the Failed outcome. -/
theorem runSync_exit_iff (env : Env) (put : Put) (files : List String)
    (hb : truthy env.s3BucketName = true) :
    ((runSync env put files).exitCode = 1 ↔ 0 < failedCount (runSync env put files)) := by
  by_cases he : files.isEmpty
  · have hnil : files = [] := by simpa using he
    subst hnil
    simp [runSync, hb, failedCount, initState]
  · rw [runSync_eq_loop env put files hb he]
    have hall := foldl_step_all_successful env put (env.s3BucketName.getD "") files initState
    have hcnt := foldl_step_failed_countP env put (env.s3BucketName.getD "") files initState
    have hinit : initState.all_successful = true := rfl
    have hinitTrace : initState.trace.countP (fun e => (e.2).isFailed) = 0 := rfl
    simp only [failedCount]
    rw [hcnt, hinitTrace, hall, hinit, Bool.true_and]
    cases hA : files.all (fun f => !(fileOutcome env put (env.s3BucketName.getD "") f).isFailed)
    · have hpos := (countP_pos_iff_not_all
        (fun f => (fileOutcome env put (env.s3BucketName.getD "") f).isFailed) files).mpr hA
      simp [hpos]
    · have h0 : files.countP (fun f => (fileOutcome env put (env.s3BucketName.getD "") f).isFailed) = 0 :=
        (all_not_iff_countP_zero _ _).mp hA
      simp [h0]

/-! Claim theorems. -/

/-- C1, counterexample: the claim says a missing credential field makes
the process terminate immediately with a non-zero status and the
configuration failure be reported exactly once with no upload attempted.
With the access key unset and the bucket set, a batch of two accepted
files gets the configuration failure reported twice (once per file), and
a batch whose only file is rejected by the key deriver exits with status
0, not a non-zero status. -/
theorem c1_counterexample :
    truthy envNoKey.awsAccessKeyId = false ∧
    truthy envNoKey.s3BucketName = true ∧
    (runSync envNoKey putOk ["01_a/d1/f.pdf", "01_a/d1/g.pdf"]).final.configErrors = 2 ∧
    (runSync envNoKey putOk ["x"]).exitCode = 0 := by
  decide

/-- C1, amended: when a per-upload credential (access key, secret key or
region) is missing while the bucket name is set, no transfer is ever
invoked, but the process does not stop early: every file is still
processed, the configuration failure is reported once per accepted file
rather than once per process, and the exit status is 1 exactly when at
least one file was accepted by the key deriver (0 when every file was
rejected). -/
theorem c1_amended_thm (env : Env) (put : Put) (files : List String)
    (hb : truthy env.s3BucketName = true) (hc : credsOk env = false) :
    (runSync env put files).final.attempts = 0 ∧
    (runSync env put files).final.configErrors
        = (files.filter (fun f => (transform_path_to_s3_key f).isSome)).length ∧
    (runSync env put files).final.trace.length = files.length ∧
    (runSync env put files).exitCode
        = (if (files.filter (fun f => (transform_path_to_s3_key f).isSome)).length = 0
           then 0 else 1) := by
  by_cases he : files.isEmpty
  · have hnil : files = [] := by simpa using he
    subst hnil
    simp [runSync, hb, initState]
  · rw [runSync_eq_loop env put files hb he]
    have hattempts := foldl_step_attempts_bad env put (env.s3BucketName.getD "") files initState hc
    have hconf := foldl_step_configErrors_bad env put (env.s3BucketName.getD "") files initState hc
    have htrace := foldl_step_trace env put (env.s3BucketName.getD "") files initState
    have hall := foldl_step_all_successful env put (env.s3BucketName.getD "") files initState
    have hout : ∀ f, (!(fileOutcome env put (env.s3BucketName.getD "") f).isFailed)
        = !(transform_path_to_s3_key f).isSome := by
      intro f
      rw [fileOutcome_config_fail env put _ f hc]
      cases h : transform_path_to_s3_key f <;> simp [h, Outcome.isFailed]
    have key : (files.all (fun f => !(transform_path_to_s3_key f).isSome) = true)
        ↔ ((files.filter (fun f => (transform_path_to_s3_key f).isSome)).length = 0) := by
      rw [← List.countP_eq_length_filter]
      exact all_not_iff_countP_zero _ _
    refine ⟨?_, ?_, ?_, ?_⟩
    · simp only [hattempts]
      rfl
    · simp only [hconf]
      simp [initState]
    · simp only [htrace]
      simp [initState]
    · simp only [hall]
      have hinit : initState.all_successful = true := rfl
      simp only [hinit, Bool.true_and]
      simp only [hout]
      cases hA : files.all (fun f => !(transform_path_to_s3_key f).isSome)
      · have hne0 : ¬ ((files.filter (fun f => (transform_path_to_s3_key f).isSome)).length = 0) := by
          rw [← key, hA]
          simp
        rw [if_neg hne0]
        simp
      · have h0 := key.mp hA
        rw [if_pos h0]
        simp

/-- Witness for the amended C1 at a concrete input: one accepted and one
rejected file under the access-key-less environment give zero transfer
invocations and exit status 1. -/
theorem c1_amended_witness :
    (runSync envNoKey putOk ["01_a/d1/f.pdf", "x"]).final.attempts = 0 ∧
    (runSync envNoKey putOk ["01_a/d1/f.pdf", "x"]).exitCode = 1 := by
  have h := c1_amended_thm envNoKey putOk ["01_a/d1/f.pdf", "x"] (by decide) (by decide)
  exact ⟨h.1, h.2.2.2.trans (by decide)⟩

/-- C2: for every segment list of length at least 3 whose first segment
has its first underscore at a positive index i, derivation yields the
key made of the literal prefix, the substring of the first segment
strictly after that underscore, and the last segment, joined by slashes.
The key depends on nothing but the first and the last segment, so no
intermediate segment influences it. -/
theorem c2_key_from_first_and_last (parts : List String) (i : Nat)
    (hlen : 3 ≤ parts.length) (hfind : pyFind (parts.headD "") '_' = (i : Int))
    (hi : 0 < i) :
    transformParts parts
      = some ("others/" ++ String.mk ((parts.headD "").toList.drop (i + 1))
              ++ "/" ++ parts.getLastD "") := by
  have hpos : (0 : Int) < (i : Int) := by exact_mod_cast hi
  simp only [transformParts]
  rw [hfind, if_pos hlen, if_pos hpos]
  norm_num

/-- Witness for C2: the first segment with two underscores keeps
everything after the first one as the category. -/
theorem c2_witness :
    transformParts ["02_tech_news", "d", "x.pdf"] = some "others/tech_news/x.pdf" :=
  (c2_key_from_first_and_last ["02_tech_news", "d", "x.pdf"] 2 (by decide) (by decide)
    (by decide)).trans (by decide)

/-- C3: every segment list with fewer than 3 segments is rejected. -/
theorem c3_short_path_rejected (parts : List String) (h : parts.length < 3) :
    transformParts parts = none := by
  unfold transformParts
  rw [if_neg (by omega)]

/-- Witness for C3 at a two-segment path. -/
theorem c3_witness : transformParts ["a", "b"] = none :=
  c3_short_path_rejected ["a", "b"] (by decide)

/-- C4: a segment list of length at least 3 whose first segment has no
underscore, or whose first underscore sits at index 0, is rejected. -/
theorem c4_bad_first_segment_rejected (parts : List String) (hlen : 3 ≤ parts.length)
    (h : ¬ '_' ∈ (parts.headD "").toList ∨ pyFind (parts.headD "") '_' = 0) :
    transformParts parts = none := by
  have hle : pyFind (parts.headD "") '_' ≤ 0 := by
    rcases h with h | h
    · have hf : (parts.headD "").toList.findIdx? (fun x => x == '_') = none := by
        rw [List.findIdx?_eq_none_iff]
        intro x hx
        simp only [beq_eq_false_iff_ne, ne_eq]
        rintro rfl
        exact h hx
      unfold pyFind
      rw [hf]
      simp
    · omega
  unfold transformParts
  rw [if_pos hlen, if_neg (by omega)]

/-- Witness for C4 at a path with no underscore and at a path whose
first segment starts with the underscore. -/
theorem c4_witness :
    transformParts ["nound", "b", "c"] = none ∧ transformParts ["_foo", "b", "c"] = none :=
  ⟨c4_bad_first_segment_rejected ["nound", "b", "c"] (by decide) (Or.inl (by decide)),
   c4_bad_first_segment_rejected ["_foo", "b", "c"] (by decide) (Or.inr (by decide))⟩

/-- C5: the exit code is always 0 or 1; it is 1 exactly when the bucket
name is falsy or some file of the batch ended Failed (so 0 for the
empty batch and for batches whose files were all merely skipped); and
when the bucket name is falsy, the process stopped before any
derivation, any credential check inside the upload executor, and any
transfer. -/
theorem c5_exit_codes (env : Env) (put : Put) (files : List String) :
    ((runSync env put files).exitCode = 0 ∨ (runSync env put files).exitCode = 1) ∧
    ((runSync env put files).exitCode = 1
        ↔ (truthy env.s3BucketName = false ∨ 0 < failedCount (runSync env put files))) ∧
    (truthy env.s3BucketName = false →
        (runSync env put files).final.derivations = 0 ∧
        (runSync env put files).final.execCalls = [] ∧
        (runSync env put files).final.attempts = 0) := by
  refine ⟨?_, ?_, ?_⟩
  · by_cases hb : truthy env.s3BucketName = false
    · simp [runSync, hb]
    · have hb' : truthy env.s3BucketName = true := by simpa using hb
      by_cases he : files.isEmpty
      · simp [runSync, hb', he]
      · rw [runSync_eq_loop env put files hb' he]
        cases hA : (files.foldl (step env put (env.s3BucketName.getD "")) initState).all_successful <;>
          simp
  · by_cases hb : truthy env.s3BucketName = false
    · simp [runSync, hb, failedCount, initState]
    · have hb' : truthy env.s3BucketName = true := by simpa using hb
      have hiff := runSync_exit_iff env put files hb'
      simp [hb', hiff]
  · intro hb
    simp [runSync, hb, initState]

/-- Witness for C5: with the bucket unset the exit code is 1 through the
left disjunct. -/
theorem c5_witness :
    ((runSync envNoBucket putOk ["01_a/d/f.pdf"]).exitCode = 1
      ↔ (truthy envNoBucket.s3BucketName = false
          ∨ 0 < failedCount (runSync envNoBucket putOk ["01_a/d/f.pdf"]))) :=
  (c5_exit_codes envNoBucket putOk ["01_a/d/f.pdf"]).2.1

/-- C6: with the bucket set, the outcome trace of a run is the per-file
outcome of each input file in the order given (no reordering, no
deduplication, no early stop after a Failed outcome), the upload
executor receives exactly the files whose derivation was accepted (so
never a rejected file), the skipped counter counts exactly the rejected
files, and all_successful holds exactly when no file ended Failed. -/
theorem c6_batch_contract (env : Env) (put : Put) (files : List String)
    (hb : truthy env.s3BucketName = true) :
    (runSync env put files).final.trace
        = files.map (fun f => (f, fileOutcome env put (env.s3BucketName.getD "") f)) ∧
    (runSync env put files).final.execCalls
        = files.filter (fun f => (transform_path_to_s3_key f).isSome) ∧
    (runSync env put files).final.skipped_files
        = files.countP (fun f => (transform_path_to_s3_key f).isNone) ∧
    (runSync env put files).final.all_successful
        = files.all (fun f => !(fileOutcome env put (env.s3BucketName.getD "") f).isFailed) := by
  by_cases he : files.isEmpty
  · have hnil : files = [] := by simpa using he
    subst hnil
    simp [runSync, hb, initState]
  · rw [runSync_eq_loop env put files hb he]
    have htrace := foldl_step_trace env put (env.s3BucketName.getD "") files initState
    have hexec := foldl_step_execCalls env put (env.s3BucketName.getD "") files initState
    have hskip := foldl_step_skipped env put (env.s3BucketName.getD "") files initState
    have hall := foldl_step_all_successful env put (env.s3BucketName.getD "") files initState
    have hinit : initState.all_successful = true := rfl
    refine ⟨?_, ?_, ?_, ?_⟩
    · simp only [htrace]
      simp [initState]
    · simp only [hexec]
      simp [initState]
    · simp only [hskip]
      simp [initState]
    · rw [hall, hinit, Bool.true_and]

/-- Witness for C6: the three-file batch of the spec (uploaded, skipped
by the deriver, failed transfer) is processed in order with one skip and
continues past the failure. -/
theorem c6_witness :
    (runSync envFull (putMissing "01_a/d/g.pdf") ["01_a/d/f.pdf", "zz", "01_a/d/g.pdf"]).final.trace
      = [("01_a/d/f.pdf", Outcome.uploaded), ("zz", Outcome.skipped),
         ("01_a/d/g.pdf", Outcome.failed)] ∧
    (runSync envFull (putMissing "01_a/d/g.pdf") ["01_a/d/f.pdf", "zz", "01_a/d/g.pdf"]).final.skipped_files
      = 1 := by
  have h := c6_batch_contract envFull (putMissing "01_a/d/g.pdf")
    ["01_a/d/f.pdf", "zz", "01_a/d/g.pdf"] (by decide)
  exact ⟨h.1.trans (by decide), h.2.2.1.trans (by decide)⟩

/-- C7: derivation is total on every input string: it always yields a
result, either a rejection or some key, mirroring the try-except wrapper
that converts any internal fault to the rejection value instead of
raising to the batch loop. -/
theorem c7_never_raises (s : String) :
    transform_path_to_s3_key s = none ∨ ∃ k, transform_path_to_s3_key s = some k := by
  cases h : transform_path_to_s3_key s
  · exact Or.inl rfl
  · exact Or.inr ⟨_, rfl⟩

/-- C8: with the bucket set, the empty argument list exits with status 0
and runs no derivation, no upload-executor call and no transfer. -/
theorem c8_empty_input (env : Env) (put : Put) (hb : truthy env.s3BucketName = true) :
    (runSync env put []).exitCode = 0 ∧
    (runSync env put []).final.derivations = 0 ∧
    (runSync env put []).final.attempts = 0 ∧
    (runSync env put []).final.execCalls = [] := by
  simp [runSync, hb, initState]

/-- Witness for C8 under the fully populated environment. -/
theorem c8_witness :
    (runSync envFull putOk []).exitCode = 0 ∧
    (runSync envFull putOk []).final.derivations = 0 ∧
    (runSync envFull putOk []).final.attempts = 0 ∧
    (runSync envFull putOk []).final.execCalls = [] :=
  c8_empty_input envFull putOk (by decide)

/-- C9: derivation is a pure deterministic function of its input: two
calls on the same path string yield the same result, since the embedded
function reads no state other than its argument. -/
theorem c9_deterministic (s : String) :
    transform_path_to_s3_key s = transform_path_to_s3_key s := rfl

/-- C10: the successful-uploads counter of the final batch summary is
never incremented by any branch of the loop: every run, under every
environment and every transfer oracle, reports 0 files successfully
uploaded. -/
theorem c10_successful_uploads_never_incremented (env : Env) (put : Put) (files : List String) :
    (runSync env put files).final.successful_uploads = 0 := by
  by_cases hb : truthy env.s3BucketName = false <;>
    by_cases he : files.isEmpty <;>
      simp [runSync, hb, he, initState, foldl_step_successful_uploads]

end SyncSpec
